import Mathlib

/-!
# Negotiation agents: shallow embedding and verification

This file embeds the two negotiation agents of the repository
(`YourBuyerAgent` from the buyer module and `YourSellerAgent` from
`seller_agent.py`) as Lean functions and proves the specified properties
of the decision engines, the pricing model and the price extractor.

Modelling conventions:
* Python integers are `Nat` (all prices in the program are non-negative:
  they come from digit-only regex matches or from clamping to non-negative
  bounds).
* Python float expressions such as `int(x * 0.6)` are embedded as exact
  rational arithmetic with floor, i.e. `x * 6 / 10` in `Nat`; at every
  concrete value the claims mention the exact and the floating result agree.
* The `ollama` subprocess call is the only effect; it is embedded as an
  explicit oracle parameter `outcome : Option String` (`none` = any
  invocation failure, `some out` = the decoded stdout), threaded into the
  otherwise pure decision functions.
* `Dict[str, Any]` attributes are only consulted for the truthiness of the
  `"export_grade"` key, so they are embedded as an association list to `Bool`.
-/

namespace Negotiation

/-- `DealStatus` enum, common to both modules. -/
inductive DealStatus where
  | ONGOING
  | ACCEPTED
  | REJECTED
deriving DecidableEq, Repr

/-- `Product` dataclass, identical in both modules. -/
structure Product where
  name : String
  category : String
  quantity : Nat
  quality_grade : String
  origin : String
  base_market_price : Nat
  attributes : List (String × Bool)
deriving DecidableEq, Repr

/-- `product.attributes.get(key)` truthiness: association-list lookup, `False`
when the key is absent. -/
def Product.getAttr (p : Product) (key : String) : Bool :=
  match p.attributes.lookup key with
  | some b => b
  | none => false

/-- Python whitespace characters relevant to `str.strip()`. -/
def isPySpace (c : Char) : Bool :=
  c = ' ' || c = '\t' || c = '\n' || c = '\x0d'

/-- `str.strip()` on a character list: drop whitespace from both ends. -/
def pyStrip (l : List Char) : List Char :=
  ((l.dropWhile isPySpace).reverse.dropWhile isPySpace).reverse

/-- `str.strip()` on a `String`. -/
def pyStripS (s : String) : String :=
  String.mk (pyStrip s.data)

/-- Leftmost maximal digit run of a character list, as the regex
`(\d+(\.\d+)?)` finds it; `int(float(...))` truncates the fractional part,
so only the leading integer digit run determines the extracted value. -/
def firstDigitRun : List Char → Option (List Char)
  | [] => none
  | c :: cs => if c.isDigit then some (c :: cs.takeWhile Char.isDigit) else firstDigitRun cs

/-- Decimal value of a most-significant-first digit-character list. -/
def digitsToNat (ds : List Char) : Nat :=
  ds.foldl (fun acc c => acc * 10 + (c.toNat - 48)) 0

/-- `extract_price`, textually identical in `YourBuyerAgent` and
`YourSellerAgent`: remove `","` and `"₹"`, strip, take the leftmost numeric
match, truncate to an integer; `0` when there is no match. -/
def extract_price (text : String) : Nat :=
  match firstDigitRun (pyStrip (text.data.filter (fun c => c ≠ ',' && c ≠ '₹'))) with
  | some ds => digitsToNat ds
  | none => 0

/-- The `grade_adj` table `{A: 1.05, B: 0.95, Export: 1.10}` with default
`1.0`, plus the `export_grade` bump of `0.02`, as a multiplier in hundredths. -/
def multiplier100 (p : Product) : Nat :=
  (if p.quality_grade = "A" then 105
   else if p.quality_grade = "B" then 95
   else if p.quality_grade = "Export" then 110
   else 100) + (if p.getAttr "export_grade" then 2 else 0)

/-- Python's `f"₹{n:,}"`: the decimal digits of `n` grouped in threes from
the right with `","`, prefixed by `"₹"`. `groupThreesLE` works on the
little-endian digit list. -/
def groupThreesLE : List Char → List Char
  | [] => []
  | [a] => [a]
  | [a, b] => [a, b]
  | [a, b, c] => [a, b, c]
  | a :: b :: c :: d :: rest => a :: b :: c :: ',' :: groupThreesLE (d :: rest)

/-- Render `f"₹{n:,}"`. -/
def rupeeFmt (n : Nat) : String :=
  String.mk ('₹' :: (groupThreesLE ((Nat.digits 10 n).map Nat.digitChar)).reverse)

end Negotiation

namespace Negotiation.YourBuyerAgent

/-- `NegotiationContext` dataclass of the buyer module. -/
structure NegotiationContext where
  product : Product
  your_budget : Nat
  current_round : Nat
  seller_offers : List Nat
  your_offers : List Nat
  messages : List (String × String)
deriving DecidableEq, Repr

/-- `YourBuyerAgent.calculate_fair_price`: grade multiplier, then clamp into
`[int(base*0.7), int(base*1.2)]`. -/
def calculate_fair_price (product : Product) : Nat :=
  let base := product.base_market_price
  let fair := base * multiplier100 product / 100
  max (base * 7 / 10) (min (base * 12 / 10) fair)

/-- `min_willing` as computed at the top of `respond_to_seller_offer`:
`max(1, int(fair_price * 0.6))`. -/
def min_willing (ctx : NegotiationContext) : Nat :=
  max 1 (calculate_fair_price ctx.product * 6 / 10)

/-- `max_willing` as computed at the top of `respond_to_seller_offer`:
the buyer's budget. -/
def max_willing (ctx : NegotiationContext) : Nat :=
  ctx.your_budget

/-- `last_offer`: previous own offer, or `int(fair_price * 0.75)` if none. -/
def last_offer (ctx : NegotiationContext) : Nat :=
  (ctx.your_offers.getLast?).getD (calculate_fair_price ctx.product * 3 / 4)

/-- `YourBuyerAgent.query_ollama`: on any exception the deterministic
fallback; on success the stripped stdout, or the fallback when it is empty. -/
def query_ollama (outcome : Option String) (fallback_price : Nat) : String :=
  match outcome with
  | none => s!"I can offer ₹{fallback_price}."
  | some out =>
    let response := pyStripS out
    if response = "" then s!"I can offer ₹{fallback_price}." else response

/-- `YourBuyerAgent.respond_to_seller_offer`. `outcome` is the oracle for the
`ollama` subprocess (see module header); `seller_message` only enters the
prompt, which the oracle replaces, so it is not a parameter of the result. -/
def respond_to_seller_offer (ctx : NegotiationContext) (seller_price : Nat)
    (outcome : Option String) : DealStatus × Nat × String :=
  let fair_price := calculate_fair_price ctx.product
  if ctx.current_round = 9 then
    let t0 := seller_price * 9 / 10
    let t1 := if t0 > max_willing ctx then max_willing ctx else t0
    let target_price := if t1 < min_willing ctx then min_willing ctx else t1
    (DealStatus.ONGOING, target_price,
      s!"If you can reduce by 10% to ₹{target_price}, we have a deal.")
  else if ctx.current_round = 10 then
    (DealStatus.ACCEPTED, seller_price, s!"Alright, I accept ₹{seller_price}.")
  else
    let ai_reply := query_ollama outcome (last_offer ctx)
    let counter := extract_price ai_reply
    let counter1 :=
      if counter > max_willing ctx then max_willing ctx
      else if counter < min_willing ctx then min_willing ctx
      else counter
    let ai_reply1 :=
      if counter > max_willing ctx then
        s!"Considering my budget and the value, I can only go up to ₹{counter1}."
      else if counter < min_willing ctx then
        s!"This is my best and final offer given the market reality — ₹{counter1}."
      else ai_reply
    let tolerance := fair_price * 2 / 100
    if seller_price ≤ max_willing ctx ∧ seller_price ≤ fair_price + tolerance then
      (DealStatus.ACCEPTED, seller_price, s!"Alright, I accept ₹{seller_price}.")
    else
      (DealStatus.ONGOING, counter1, ai_reply1)

end Negotiation.YourBuyerAgent

namespace Negotiation.YourSellerAgent

/-- `NegotiationContext` dataclass of `seller_agent.py`. -/
structure NegotiationContext where
  product : Product
  seller_minimum_price : Nat
  current_round : Nat
  buyer_offers : List Nat
  seller_offers : List Nat
  messages : List (String × String)
deriving DecidableEq, Repr

/-- `YourSellerAgent.calculate_fair_price`: grade multiplier, then
`max(fair, base + 1)` — always at least 1 above market price. -/
def calculate_fair_price (product : Product) : Nat :=
  let base := product.base_market_price
  let fair := base * multiplier100 product / 100
  max fair (base + 1)

/-- `last_offer`: previous own offer, or `fair_price + 50` if none. -/
def last_offer (ctx : NegotiationContext) : Nat :=
  (ctx.seller_offers.getLast?).getD (calculate_fair_price ctx.product + 50)

/-- `YourSellerAgent.query_ollama`: same shape as the buyer's, with the
seller's fallback text. -/
def query_ollama (outcome : Option String) (fallback_price : Nat) : String :=
  match outcome with
  | none => s!"I can do ₹{fallback_price}."
  | some out =>
    let response := pyStripS out
    if response = "" then s!"I can do ₹{fallback_price}." else response

/-- `YourSellerAgent.respond_to_buyer_offer`. `outcome` is the oracle for
the `ollama` subprocess. -/
def respond_to_buyer_offer (ctx : NegotiationContext) (buyer_price : Nat)
    (outcome : Option String) : DealStatus × Nat × String :=
  if ctx.current_round = 9 then
    let counter := buyer_price * 11 / 10
    (DealStatus.ONGOING, counter, s!"If you can raise it by 10% to ₹{counter}, we have a deal.")
  else if ctx.current_round = 10 then
    (DealStatus.ACCEPTED, buyer_price, s!"Alright, deal at ₹{buyer_price}!")
  else
    let ai_reply := query_ollama outcome (last_offer ctx)
    let counter := extract_price ai_reply
    if buyer_price ≥ ctx.product.base_market_price ∧ buyer_price ≥ last_offer ctx then
      (DealStatus.ACCEPTED, buyer_price, s!"Deal at ₹{buyer_price}! You’re getting unmatched value.")
    else
      let min_price_allowed := ctx.product.base_market_price + 1
      let counter1 :=
        if counter ≤ ctx.product.base_market_price then min_price_allowed else counter
      let ai_reply1 :=
        if counter ≤ ctx.product.base_market_price then
          s!"Considering the quality of these {ctx.product.name}, the best I can do is ₹{counter1}."
        else ai_reply
      (DealStatus.ONGOING, counter1, ai_reply1)

end Negotiation.YourSellerAgent

namespace Negotiation

/-- Scenario-A product: the buyer module's chat driver product (base 500,
grade "A", export_grade true). -/
def productA : Product :=
  ⟨"Alphonso Mangoes", "Fruit", 10, "A", "India", 500, [("export_grade", true)]⟩

/-- The seller module's chat driver product (base 600, grade "A",
export_grade true). -/
def productS : Product :=
  ⟨"Alphonso Mangoes", "Fruit", 10, "A", "India", 600, [("export_grade", true)]⟩

/-- A product with an unknown grade and no attributes, base 500. -/
def productPlain : Product := ⟨"Widget", "Misc", 1, "C", "Nowhere", 500, []⟩

/-- Scenario-A buyer context on an ordinary round. -/
def ctxA : YourBuyerAgent.NegotiationContext := ⟨productA, 450, 3, [500], [], []⟩

/-- A buyer context whose budget (100) is below `min_willing` (300). -/
def ctxPoor : YourBuyerAgent.NegotiationContext := ⟨productPlain, 100, 3, [], [], []⟩

/-- A seller context on an ordinary round with one previous own offer. -/
def ctxSell : YourSellerAgent.NegotiationContext := ⟨productS, 460, 3, [], [690], []⟩

/-- A seller context on round 10 with no own offer yet. -/
def ctxSell10 : YourSellerAgent.NegotiationContext := ⟨productS, 460, 10, [], [], []⟩

/-- A buyer context on round 10. -/
def ctxBuy10 : YourBuyerAgent.NegotiationContext := ⟨productA, 450, 10, [], [], []⟩

/-- A buyer context on round 9. -/
def ctxBuy9 : YourBuyerAgent.NegotiationContext := ⟨productA, 450, 9, [], [], []⟩

/-- A seller context on round 9. -/
def ctxSell9 : YourSellerAgent.NegotiationContext := ⟨productS, 460, 9, [], [], []⟩

/-- Scenario-A buyer context with every field other than the product and the
budget left free. -/
def ctxScenarioA (round : Nat) (so yo : List Nat) (msgs : List (String × String)) :
    YourBuyerAgent.NegotiationContext :=
  ⟨productA, 450, round, so, yo, msgs⟩

/-- Shared bounds lemma for the buyer's normal rounds: when the guardrail
interval is non-empty, any `ONGOING` result's price lies inside it. -/
theorem buyer_bounds_aux (ctx : YourBuyerAgent.NegotiationContext) (sp : Nat)
    (oc : Option String) (h9 : ctx.current_round ≠ 9) (h10 : ctx.current_round ≠ 10)
    (hmm : YourBuyerAgent.min_willing ctx ≤ YourBuyerAgent.max_willing ctx)
    (hOng : (YourBuyerAgent.respond_to_seller_offer ctx sp oc).1 = DealStatus.ONGOING) :
    YourBuyerAgent.min_willing ctx ≤ (YourBuyerAgent.respond_to_seller_offer ctx sp oc).2.1 ∧
      (YourBuyerAgent.respond_to_seller_offer ctx sp oc).2.1 ≤ YourBuyerAgent.max_willing ctx := by
  unfold YourBuyerAgent.respond_to_seller_offer at hOng ⊢
  simp only [h9, h10, if_false, ite_false] at hOng ⊢
  split_ifs at hOng ⊢ with hacc h1 h2 <;> simp_all

/-- C2: on every seller turn whose round is neither 9 nor 10, either the turn
returns `ACCEPTED`, or the returned counter price is strictly greater than
the product's base market price. -/
theorem seller_counter_above_market (ctx : YourSellerAgent.NegotiationContext) (bp : Nat)
    (oc : Option String) (h9 : ctx.current_round ≠ 9) (h10 : ctx.current_round ≠ 10) :
    (YourSellerAgent.respond_to_buyer_offer ctx bp oc).1 = DealStatus.ACCEPTED ∨
      ctx.product.base_market_price < (YourSellerAgent.respond_to_buyer_offer ctx bp oc).2.1 := by
  unfold YourSellerAgent.respond_to_buyer_offer
  simp only [h9, h10, if_false, ite_false]
  split_ifs with hacc hle
  · exact Or.inl rfl
  · exact Or.inr (by simp)
  · exact Or.inr (by simp; omega)

/-- Witness for `seller_counter_above_market` at a concrete ordinary-round
seller turn. -/
theorem seller_counter_above_market_witness :
    (YourSellerAgent.respond_to_buyer_offer ctxSell 100 none).1 = DealStatus.ACCEPTED ∨
      ctxSell.product.base_market_price <
        (YourSellerAgent.respond_to_buyer_offer ctxSell 100 none).2.1 :=
  seller_counter_above_market ctxSell 100 none (by decide) (by decide)

/-- C3 counterexample: on round 10 the seller accepts a buyer price of 0 even
though the claimed acceptance condition fails, so the stated biconditional is
false for that turn. -/
theorem seller_accept_iff_cex :
    (YourSellerAgent.respond_to_buyer_offer ctxSell10 0 none).1 = DealStatus.ACCEPTED ∧
      ¬((0 : Nat) ≥ ctxSell10.product.base_market_price ∧
        (0 : Nat) ≥ YourSellerAgent.last_offer ctxSell10) := by
  decide

/-- C3 (amended to rounds other than 9 and 10): the seller turn returns
`ACCEPTED` iff `buyer_price >= base_market_price` and
`buyer_price >= last_offer` (previous own offer, or `fair_price + 50`
when none exists yet). -/
theorem seller_accept_iff (ctx : YourSellerAgent.NegotiationContext) (bp : Nat)
    (oc : Option String) (h9 : ctx.current_round ≠ 9) (h10 : ctx.current_round ≠ 10) :
    (YourSellerAgent.respond_to_buyer_offer ctx bp oc).1 = DealStatus.ACCEPTED ↔
      (bp ≥ ctx.product.base_market_price ∧ bp ≥ YourSellerAgent.last_offer ctx) := by
  unfold YourSellerAgent.respond_to_buyer_offer
  simp only [h9, h10, if_false, ite_false]
  split_ifs with hacc
  · simpa using hacc
  · constructor
    · intro h
      exact absurd h (by simp)
    · intro h
      exact absurd h hacc

/-- Witness for `seller_accept_iff` at a concrete accepting seller turn. -/
theorem seller_accept_iff_witness :
    (YourSellerAgent.respond_to_buyer_offer ctxSell 700 none).1 = DealStatus.ACCEPTED ↔
      (700 ≥ ctxSell.product.base_market_price ∧ 700 ≥ YourSellerAgent.last_offer ctxSell) :=
  seller_accept_iff ctxSell 700 none (by decide) (by decide)

/-- C5: on round 10 both agents return `ACCEPTED` at exactly the
counterpart's current price, for every counterpart price and every advisory
outcome. -/
theorem round10_unconditional_accept (bctx : YourBuyerAgent.NegotiationContext)
    (sctx : YourSellerAgent.NegotiationContext) (sp bp : Nat) (ocb ocs : Option String)
    (hb : bctx.current_round = 10) (hs : sctx.current_round = 10) :
    (YourBuyerAgent.respond_to_seller_offer bctx sp ocb).1 = DealStatus.ACCEPTED ∧
      (YourBuyerAgent.respond_to_seller_offer bctx sp ocb).2.1 = sp ∧
      (YourSellerAgent.respond_to_buyer_offer sctx bp ocs).1 = DealStatus.ACCEPTED ∧
      (YourSellerAgent.respond_to_buyer_offer sctx bp ocs).2.1 = bp := by
  unfold YourBuyerAgent.respond_to_seller_offer YourSellerAgent.respond_to_buyer_offer
  simp [hb, hs]

/-- Witness for `round10_unconditional_accept` on concrete round-10 turns. -/
theorem round10_unconditional_accept_witness :
    (YourBuyerAgent.respond_to_seller_offer ctxBuy10 480 none).1 = DealStatus.ACCEPTED ∧
      (YourBuyerAgent.respond_to_seller_offer ctxBuy10 480 none).2.1 = 480 ∧
      (YourSellerAgent.respond_to_buyer_offer ctxSell10 5 (some "₹9999")).1 = DealStatus.ACCEPTED ∧
      (YourSellerAgent.respond_to_buyer_offer ctxSell10 5 (some "₹9999")).2.1 = 5 :=
  round10_unconditional_accept ctxBuy10 ctxSell10 480 5 none (some "₹9999") (by decide) (by decide)

/-- C6: on a round-9 buyer turn with seller price `P`, the status is
`ONGOING` and the price is `clamp(int(P*0.9), min_willing, max_willing)`,
independently of the advisory outcome. -/
theorem buyer_round9_concession (ctx : YourBuyerAgent.NegotiationContext) (sp : Nat)
    (oc : Option String) (h9 : ctx.current_round = 9) :
    (YourBuyerAgent.respond_to_seller_offer ctx sp oc).1 = DealStatus.ONGOING ∧
      (YourBuyerAgent.respond_to_seller_offer ctx sp oc).2.1 =
        max (YourBuyerAgent.min_willing ctx)
          (min (sp * 9 / 10) (YourBuyerAgent.max_willing ctx)) := by
  unfold YourBuyerAgent.respond_to_seller_offer
  simp only [h9, if_true, ite_true]
  refine ⟨trivial, ?_⟩
  split_ifs <;> omega

/-- Witness for `buyer_round9_concession` at a concrete round-9 turn. -/
theorem buyer_round9_concession_witness :
    (YourBuyerAgent.respond_to_seller_offer ctxBuy9 480 none).1 = DealStatus.ONGOING ∧
      (YourBuyerAgent.respond_to_seller_offer ctxBuy9 480 none).2.1 =
        max (YourBuyerAgent.min_willing ctxBuy9)
          (min (480 * 9 / 10) (YourBuyerAgent.max_willing ctxBuy9)) :=
  buyer_round9_concession ctxBuy9 480 none (by decide)

/-- C10: on a round-9 seller turn with buyer price `P`, the status is
`ONGOING` and the counter is exactly `int(P * 1.10)` with no floor at
`base_market_price + 1`; in particular a buyer price of 0 yields a counter
at or below the base market price. -/
theorem seller_round9_no_floor (ctx : YourSellerAgent.NegotiationContext) (bp : Nat)
    (oc : Option String) (h9 : ctx.current_round = 9) :
    (YourSellerAgent.respond_to_buyer_offer ctx bp oc).1 = DealStatus.ONGOING ∧
      (YourSellerAgent.respond_to_buyer_offer ctx bp oc).2.1 = bp * 11 / 10 ∧
      (bp = 0 →
        (YourSellerAgent.respond_to_buyer_offer ctx bp oc).2.1 ≤
          ctx.product.base_market_price) := by
  unfold YourSellerAgent.respond_to_buyer_offer
  simp only [h9, if_true, ite_true]
  refine ⟨trivial, trivial, ?_⟩
  intro hbp
  subst hbp
  simp

/-- Witness for `seller_round9_no_floor` at buyer price 0 on round 9. -/
theorem seller_round9_no_floor_witness :
    (YourSellerAgent.respond_to_buyer_offer ctxSell9 0 none).1 = DealStatus.ONGOING ∧
      (YourSellerAgent.respond_to_buyer_offer ctxSell9 0 none).2.1 = 0 * 11 / 10 ∧
      (0 = 0 →
        (YourSellerAgent.respond_to_buyer_offer ctxSell9 0 none).2.1 ≤
          ctxSell9.product.base_market_price) :=
  seller_round9_no_floor ctxSell9 0 none (by decide)

/-- C1 counterexample: with a budget (100) below `min_willing` (300), a
non-round-9/10 buyer turn returns `ONGOING` with a counter price outside
`[min_willing, max_willing]`, so the claim as stated is false. -/
theorem buyer_counter_within_bounds_cex :
    (YourBuyerAgent.respond_to_seller_offer ctxPoor 600 (some "400")).1 = DealStatus.ONGOING ∧
      ctxPoor.current_round ≠ 9 ∧ ctxPoor.current_round ≠ 10 ∧
      ¬(YourBuyerAgent.min_willing ctxPoor ≤
          (YourBuyerAgent.respond_to_seller_offer ctxPoor 600 (some "400")).2.1 ∧
        (YourBuyerAgent.respond_to_seller_offer ctxPoor 600 (some "400")).2.1 ≤
          YourBuyerAgent.max_willing ctxPoor) := by
  decide

/-- C1 (amended: additionally assuming `min_willing <= max_willing`, i.e. the
budget is at least `min_willing`): every buyer turn whose round is neither 9
nor 10 and whose status is `ONGOING` returns a counter price in
`[min_willing, max_willing]`, for every advisory outcome. -/
theorem buyer_counter_within_bounds (ctx : YourBuyerAgent.NegotiationContext) (sp : Nat)
    (oc : Option String) (h9 : ctx.current_round ≠ 9) (h10 : ctx.current_round ≠ 10)
    (hmm : YourBuyerAgent.min_willing ctx ≤ YourBuyerAgent.max_willing ctx)
    (hOng : (YourBuyerAgent.respond_to_seller_offer ctx sp oc).1 = DealStatus.ONGOING) :
    YourBuyerAgent.min_willing ctx ≤ (YourBuyerAgent.respond_to_seller_offer ctx sp oc).2.1 ∧
      (YourBuyerAgent.respond_to_seller_offer ctx sp oc).2.1 ≤ YourBuyerAgent.max_willing ctx :=
  buyer_bounds_aux ctx sp oc h9 h10 hmm hOng

/-- Witness for `buyer_counter_within_bounds` at a concrete ordinary-round
buyer turn whose advisory reply proposes 400. -/
theorem buyer_counter_within_bounds_witness :
    YourBuyerAgent.min_willing ctxA ≤
        (YourBuyerAgent.respond_to_seller_offer ctxA 480 (some "I suggest ₹400.")).2.1 ∧
      (YourBuyerAgent.respond_to_seller_offer ctxA 480 (some "I suggest ₹400.")).2.1 ≤
        YourBuyerAgent.max_willing ctxA :=
  buyer_counter_within_bounds ctxA 480 (some "I suggest ₹400.")
    (by decide) (by decide) (by decide) (by decide)

/-- C4: on every buyer turn whose round is neither 9 nor 10, if the seller's
price is within budget and within fair price plus the 2% integer tolerance,
the buyer accepts at exactly the seller's price, for every advisory outcome. -/
theorem buyer_acceptance_override (ctx : YourBuyerAgent.NegotiationContext) (sp : Nat)
    (oc : Option String) (h9 : ctx.current_round ≠ 9) (h10 : ctx.current_round ≠ 10)
    (hbud : sp ≤ ctx.your_budget)
    (htol : sp ≤ YourBuyerAgent.calculate_fair_price ctx.product +
      YourBuyerAgent.calculate_fair_price ctx.product * 2 / 100) :
    (YourBuyerAgent.respond_to_seller_offer ctx sp oc).1 = DealStatus.ACCEPTED ∧
      (YourBuyerAgent.respond_to_seller_offer ctx sp oc).2.1 = sp := by
  unfold YourBuyerAgent.respond_to_seller_offer
  simp only [h9, h10, if_false, ite_false]
  have hc : sp ≤ YourBuyerAgent.max_willing ctx ∧
      sp ≤ YourBuyerAgent.calculate_fair_price ctx.product +
        YourBuyerAgent.calculate_fair_price ctx.product * 2 / 100 :=
    ⟨hbud, htol⟩
  rw [if_pos hc]
  exact ⟨rfl, rfl⟩

/-- Witness for `buyer_acceptance_override`: seller offers 440 against budget
450 and fair price 535. -/
theorem buyer_acceptance_override_witness :
    (YourBuyerAgent.respond_to_seller_offer ctxA 440 (some "₹600 final")).1 =
        DealStatus.ACCEPTED ∧
      (YourBuyerAgent.respond_to_seller_offer ctxA 440 (some "₹600 final")).2.1 = 440 :=
  buyer_acceptance_override ctxA 440 (some "₹600 final")
    (by decide) (by decide) (by decide) (by decide)

/-- C9: for the scenario-A product (base 500, grade "A", export flag), the
buyer fair price is 535, `min_willing` is 321, `max_willing` is the budget
450, and a 480 seller offer on any non-9/10 round yields an `ONGOING`
counter within `[321, 450]`, for every advisory outcome. -/
theorem scenarioA_bounds (round : Nat) (so yo : List Nat) (msgs : List (String × String))
    (oc : Option String) (h9 : round ≠ 9) (h10 : round ≠ 10) :
    YourBuyerAgent.calculate_fair_price productA = 535 ∧
      YourBuyerAgent.min_willing (ctxScenarioA round so yo msgs) = 321 ∧
      YourBuyerAgent.max_willing (ctxScenarioA round so yo msgs) = 450 ∧
      (YourBuyerAgent.respond_to_seller_offer (ctxScenarioA round so yo msgs) 480 oc).1 =
        DealStatus.ONGOING ∧
      321 ≤ (YourBuyerAgent.respond_to_seller_offer (ctxScenarioA round so yo msgs) 480 oc).2.1 ∧
      (YourBuyerAgent.respond_to_seller_offer (ctxScenarioA round so yo msgs) 480 oc).2.1 ≤ 450 := by
  have hfp : YourBuyerAgent.calculate_fair_price productA = 535 := by decide
  have hmin : YourBuyerAgent.min_willing (ctxScenarioA round so yo msgs) = 321 := by
    simp [YourBuyerAgent.min_willing, ctxScenarioA, hfp]
  have hmax : YourBuyerAgent.max_willing (ctxScenarioA round so yo msgs) = 450 := by
    simp [YourBuyerAgent.max_willing, ctxScenarioA]
  have h9' : (ctxScenarioA round so yo msgs).current_round ≠ 9 := h9
  have h10' : (ctxScenarioA round so yo msgs).current_round ≠ 10 := h10
  have hOng : (YourBuyerAgent.respond_to_seller_offer (ctxScenarioA round so yo msgs) 480 oc).1 =
      DealStatus.ONGOING := by
    unfold YourBuyerAgent.respond_to_seller_offer
    simp [ctxScenarioA, YourBuyerAgent.max_willing, h9, h10]
  have hb := buyer_bounds_aux (ctxScenarioA round so yo msgs) 480 oc h9' h10'
    (by rw [hmin, hmax]; omega) hOng
  rw [hmin, hmax] at hb
  exact ⟨hfp, hmin, hmax, hOng, hb.1, hb.2⟩

/-- Witness for `scenarioA_bounds` on round 3 with a concrete advisory reply. -/
theorem scenarioA_bounds_witness :
    YourBuyerAgent.calculate_fair_price productA = 535 ∧
      YourBuyerAgent.min_willing (ctxScenarioA 3 [500] [] []) = 321 ∧
      YourBuyerAgent.max_willing (ctxScenarioA 3 [500] [] []) = 450 ∧
      (YourBuyerAgent.respond_to_seller_offer (ctxScenarioA 3 [500] [] [])
          480 (some "I suggest ₹400.")).1 = DealStatus.ONGOING ∧
      321 ≤ (YourBuyerAgent.respond_to_seller_offer (ctxScenarioA 3 [500] [] [])
          480 (some "I suggest ₹400.")).2.1 ∧
      (YourBuyerAgent.respond_to_seller_offer (ctxScenarioA 3 [500] [] [])
          480 (some "I suggest ₹400.")).2.1 ≤ 450 :=
  scenarioA_bounds 3 [500] [] [] (some "I suggest ₹400.") (by decide) (by decide)

/-- Facts about decimal digit characters: they are regex digits, not
whitespace, survive the separator filter, and decode back to their value. -/
theorem digitChar_facts (d : Nat) (hd : d < 10) :
    (Nat.digitChar d).isDigit = true ∧ isPySpace (Nat.digitChar d) = false ∧
      ((fun c => c ≠ ',' && c ≠ '₹') (Nat.digitChar d)) = true ∧
      (Nat.digitChar d).toNat - 48 = d := by
  interval_cases d <;> exact ⟨rfl, rfl, rfl, rfl⟩

/-- `dropWhile` is the identity when no element satisfies the predicate. -/
theorem dropWhile_eq_self_of_forall {p : Char → Bool} {l : List Char}
    (h : ∀ c ∈ l, p c = false) : l.dropWhile p = l := by
  cases l with
  | nil => rfl
  | cons c cs => simp [List.dropWhile_cons, h c (List.mem_cons_self c cs)]

/-- `str.strip()` is the identity on whitespace-free text. -/
theorem pyStrip_eq_self {l : List Char} (h : ∀ c ∈ l, isPySpace c = false) :
    pyStrip l = l := by
  unfold pyStrip
  rw [dropWhile_eq_self_of_forall h,
    dropWhile_eq_self_of_forall (fun c hc => h c (List.mem_reverse.mp hc)),
    List.reverse_reverse]

/-- Membership passes from `pyStrip l` back to `l`. -/
theorem mem_of_mem_pyStrip {c : Char} {l : List Char} (h : c ∈ pyStrip l) : c ∈ l := by
  unfold pyStrip at h
  have h1 := List.mem_reverse.mp h
  have h2 := List.Sublist.mem h1 (List.dropWhile_sublist _)
  have h3 := List.mem_reverse.mp h2
  exact List.Sublist.mem h3 (List.dropWhile_sublist _)

/-- A nonempty all-digit character list is returned whole by `firstDigitRun`. -/
theorem firstDigitRun_all_digits {l : List Char} (h : ∀ c ∈ l, c.isDigit = true)
    (hne : l ≠ []) : firstDigitRun l = some l := by
  cases l with
  | nil => exact absurd rfl hne
  | cons c cs =>
    simp [firstDigitRun, h c (List.mem_cons_self c cs),
      List.takeWhile_eq_self_iff.mpr (fun x hx => h x (List.mem_cons_of_mem c hx))]

/-- `firstDigitRun` finds nothing in digit-free text. -/
theorem firstDigitRun_none {l : List Char} (h : ∀ c ∈ l, c.isDigit = false) :
    firstDigitRun l = none := by
  induction l with
  | nil => rfl
  | cons c cs ih =>
    rw [firstDigitRun, if_neg (by simp [h c (List.mem_cons_self c cs)])]
    exact ih (fun x hx => h x (List.mem_cons_of_mem c hx))

/-- Filtering the thousands separators out of a comma-grouped digit list
recovers the digit list. -/
theorem filter_groupThreesLE (l : List Char)
    (h : ∀ x ∈ l, ((fun c => c ≠ ',' && c ≠ '₹') x) = true) :
    (groupThreesLE l).filter (fun c => c ≠ ',' && c ≠ '₹') = l := by
  induction l using groupThreesLE.induct with
  | case1 => rfl
  | case2 a => simp_all [groupThreesLE, List.filter_cons]
  | case3 a b => simp_all [groupThreesLE, List.filter_cons]
  | case4 a b c => simp_all [groupThreesLE, List.filter_cons]
  | case5 a b c d rest ih =>
    have ha := h a (by simp)
    have hb := h b (by simp)
    have hc := h c (by simp)
    have hrest : ∀ x ∈ d :: rest, ((fun c => c ≠ ',' && c ≠ '₹') x) = true := by
      intro x hx
      exact h x (by simp [List.mem_cons] at hx ⊢; tauto)
    rw [groupThreesLE, List.filter_cons, if_pos ha, List.filter_cons, if_pos hb,
      List.filter_cons, if_pos hc, List.filter_cons, if_neg (by simp), ih hrest]

/-- Decoding digit characters elementwise agrees with the numeric fold. -/
theorem foldl_digitChar (L : List Nat) (a : Nat) (hL : ∀ d ∈ L, d < 10) :
    (L.map Nat.digitChar).foldl (fun acc c => acc * 10 + (c.toNat - 48)) a =
      L.foldl (fun acc d => acc * 10 + d) a := by
  induction L generalizing a with
  | nil => rfl
  | cons d T ih =>
    simp only [List.map_cons, List.foldl_cons]
    rw [(digitChar_facts d (hL d (List.mem_cons_self d T))).2.2.2]
    exact ih _ (fun x hx => hL x (List.mem_cons_of_mem d hx))

/-- The most-significant-first fold over reversed digits computes
`Nat.ofDigits`. -/
theorem foldl_reverse_ofDigits (L : List Nat) (a : Nat) :
    L.reverse.foldl (fun acc d => acc * 10 + d) a =
      a * 10 ^ L.length + Nat.ofDigits 10 L := by
  induction L generalizing a with
  | nil => simp
  | cons d T ih =>
    simp only [List.reverse_cons, List.foldl_append, List.foldl_cons, List.foldl_nil, ih,
      Nat.ofDigits_cons, List.length_cons]
    ring

/-- `digitsToNat` inverts the decimal rendering of `n`. -/
theorem digitsToNat_digits (n : Nat) :
    digitsToNat (((Nat.digits 10 n).map Nat.digitChar).reverse) = n := by
  unfold digitsToNat
  rw [← List.map_reverse,
    foldl_digitChar _ _ (fun d hd => Nat.digits_lt_base (by norm_num) (List.mem_reverse.mp hd)),
    foldl_reverse_ofDigits, Nat.ofDigits_digits]
  simp

/-- C7: the extractor round-trips Python's `f"₹{n:,}"` rendering for every
positive `n`, and returns 0 on any text containing no digit. -/
theorem extract_price_roundtrip (n : Nat) (s : String) (hn : 0 < n)
    (hs : ∀ c ∈ s.data, c.isDigit = false) :
    extract_price (rupeeFmt n) = n ∧ extract_price s = 0 := by
  constructor
  · have hL : ∀ d ∈ Nat.digits 10 n, d < 10 :=
      fun d hd => Nat.digits_lt_base (by norm_num) hd
    have hds : ∀ c ∈ (Nat.digits 10 n).map Nat.digitChar,
        c.isDigit = true ∧ isPySpace c = false ∧
          ((fun c => c ≠ ',' && c ≠ '₹') c) = true := by
      intro c hc
      obtain ⟨d, hd, rfl⟩ := List.mem_map.mp hc
      have h10 := hL d hd
      exact ⟨(digitChar_facts d h10).1, (digitChar_facts d h10).2.1,
        (digitChar_facts d h10).2.2.1⟩
    have hne : ((Nat.digits 10 n).map Nat.digitChar).reverse ≠ [] := by
      simp [List.reverse_eq_nil_iff, List.map_eq_nil_iff,
        Nat.digits_ne_nil_iff_ne_zero.mpr hn.ne']
    unfold extract_price rupeeFmt
    have hdata : (String.mk ('₹' ::
        (groupThreesLE ((Nat.digits 10 n).map Nat.digitChar)).reverse)).data =
        '₹' :: (groupThreesLE ((Nat.digits 10 n).map Nat.digitChar)).reverse := rfl
    rw [hdata, List.filter_cons, if_neg (by simp), List.filter_reverse,
      filter_groupThreesLE _ (fun x hx => (hds x hx).2.2),
      pyStrip_eq_self (fun c hc => (hds c (List.mem_reverse.mp hc)).2.1),
      firstDigitRun_all_digits (fun c hc => (hds c (List.mem_reverse.mp hc)).1) hne]
    exact digitsToNat_digits n
  · unfold extract_price
    rw [firstDigitRun_none]
    intro c hc
    exact hs c (List.Sublist.mem (mem_of_mem_pyStrip hc) (List.filter_sublist _))

/-- Witness for `extract_price_roundtrip` at `n = 1234567` and a digit-free
string. -/
theorem extract_price_roundtrip_witness :
    extract_price (rupeeFmt 1234567) = 1234567 ∧ extract_price "no digits here!" = 0 :=
  extract_price_roundtrip 1234567 "no digits here!" (by decide) (by decide)

/-- The buyer engine is total over advisory outcomes: it never reports
`REJECTED` (there is no failure-propagating status). -/
theorem buyer_status_not_rejected (ctx : YourBuyerAgent.NegotiationContext) (sp : Nat)
    (oc : Option String) :
    (YourBuyerAgent.respond_to_seller_offer ctx sp oc).1 ≠ DealStatus.REJECTED := by
  unfold YourBuyerAgent.respond_to_seller_offer
  by_cases h9 : ctx.current_round = 9
  · simp [h9]
  · by_cases h10 : ctx.current_round = 10
    · simp [h9, h10]
    · simp only [h9, h10, if_false, ite_false]
      split_ifs <;> simp

/-- The seller engine is total over advisory outcomes: it never reports
`REJECTED`. -/
theorem seller_status_not_rejected (ctx : YourSellerAgent.NegotiationContext) (bp : Nat)
    (oc : Option String) :
    (YourSellerAgent.respond_to_buyer_offer ctx bp oc).1 ≠ DealStatus.REJECTED := by
  unfold YourSellerAgent.respond_to_buyer_offer
  by_cases h9 : ctx.current_round = 9
  · simp [h9]
  · by_cases h10 : ctx.current_round = 10
    · simp [h9, h10]
    · simp only [h9, h10, if_false, ite_false]
      split_ifs <;> simp

/-- C8: on any advisory failure (`none`) or empty (whitespace-only) output,
both agents' `query_ollama` return exactly the deterministic fallback string
carrying the fallback price, and both decision engines still return a normal
status (never a failure-propagating one). -/
theorem advisory_failure_fallback (outcome : Option String) (fb : Nat)
    (bctx : YourBuyerAgent.NegotiationContext) (sctx : YourSellerAgent.NegotiationContext)
    (sp bp : Nat)
    (hfail : outcome = none ∨ ∃ out, outcome = some out ∧ pyStripS out = "") :
    YourBuyerAgent.query_ollama outcome fb = s!"I can offer ₹{fb}." ∧
      YourSellerAgent.query_ollama outcome fb = s!"I can do ₹{fb}." ∧
      (YourBuyerAgent.respond_to_seller_offer bctx sp outcome).1 ≠ DealStatus.REJECTED ∧
      (YourSellerAgent.respond_to_buyer_offer sctx bp outcome).1 ≠ DealStatus.REJECTED := by
  refine ⟨?_, ?_, buyer_status_not_rejected bctx sp outcome,
    seller_status_not_rejected sctx bp outcome⟩ <;>
    rcases hfail with h | ⟨out, ho, hem⟩
  · rw [h]; rfl
  · rw [ho]; simp [YourBuyerAgent.query_ollama, hem]
  · rw [h]; rfl
  · rw [ho]; simp [YourSellerAgent.query_ollama, hem]

/-- Witness for `advisory_failure_fallback` on a failed invocation. -/
theorem advisory_failure_fallback_witness :
    YourBuyerAgent.query_ollama none 401 = s!"I can offer ₹{(401 : Nat)}." ∧
      YourSellerAgent.query_ollama none 401 = s!"I can do ₹{(401 : Nat)}." ∧
      (YourBuyerAgent.respond_to_seller_offer ctxA 480 none).1 ≠ DealStatus.REJECTED ∧
      (YourSellerAgent.respond_to_buyer_offer ctxSell 100 none).1 ≠ DealStatus.REJECTED :=
  advisory_failure_fallback none 401 ctxA ctxSell 480 100 (Or.inl rfl)
